import Mathlib

/-!
Shallow embedding of the data-access layer of the student-management backend
(src/main.py) together with proofs about its behaviour.

Modelling conventions:
* The three SQL tables (students, academic_details, documents; src/main.py
  lines 79-117) are lists of rows inside a `DB` value; the serial primary-key
  sequences are explicit counters.
* Timestamp columns (`created_at`, `uploaded_at`) and the filesystem side
  effects (saving and removing uploaded files) are not modelled: no claim
  here concerns them.
* The `cgpa` column is a `Float` in the source; it is only ever stored and
  copied, never computed with, so it is embedded as `Rat`.
* SQL string comparison (`=`) is exact and case-sensitive, embedded as `==`
  on `String`.  `ILIKE` is full SQL LIKE-pattern matching after lowering both
  sides; it is embedded by `likeMatch` below, including the `%` and `_`
  wildcards, because the handlers interpolate the raw filter text into the
  pattern (`f"%{college}%"`, src/main.py lines 346 and 350).
* A SELECT without ORDER BY returns its rows in an order chosen by the
  database engine; `get_students` (which the pagination claims are about)
  therefore takes the engine-chosen row order as an explicit argument,
  constrained to be a permutation of the stored rows.  The search and update
  operations, whose claims do not depend on row order, use the stored order.
* FastAPI/pydantic request validation (the `Query(..., ge=..., le=...)`
  bounds on `skip` and `limit`) rejects a request before the handler body
  runs; this is embedded as the leading range check of the operation.
* Errors: `duplicateEmail` is the HTTP 400 "Email already registered",
  `notFound` the HTTP 404s, `invalidParameter` the HTTP 422 raised by
  request validation, and `storageUnavailable` stands for a database failure
  surfacing from a `commit()` call.
-/

deriving instance DecidableEq for Except

namespace StudentMgmt

/-- Row of the `students` table (src/main.py lines 79-91). -/
structure StudentRow where
  id : Nat
  name : String
  email : String
  phone : String
  gender : String
deriving Repr, DecidableEq

/-- Row of the `academic_details` table (src/main.py lines 93-105). -/
structure AcademicRow where
  id : Nat
  student_id : Nat
  college_name : String
  department : String
  graduation_year : Int
  cgpa : Rat
  backlogs : Int
deriving Repr, DecidableEq

/-- Row of the `documents` table (src/main.py lines 107-117). -/
structure DocumentRow where
  id : Nat
  student_id : Nat
  doc_type : String
  file_path : String
deriving Repr, DecidableEq

/-- The persistent store: the three tables plus the primary-key sequences. -/
structure DB where
  students : List StudentRow
  academics : List AcademicRow
  documents : List DocumentRow
  nextStudentId : Nat
  nextAcademicId : Nat
deriving Repr, DecidableEq

/-- Pydantic model `AcademicDetailsBase` (src/main.py lines 125-130). -/
structure AcademicDetailsBase where
  college_name : String
  department : String
  graduation_year : Int
  cgpa : Rat
  backlogs : Int := 0
deriving Repr, DecidableEq

/-- Pydantic model `StudentCreate` (src/main.py lines 149-156). -/
structure StudentCreate where
  name : String
  email : String
  phone : String
  gender : String
  academic_details : AcademicDetailsBase
deriving Repr, DecidableEq

/-- Pydantic model `StudentUpdate` (src/main.py lines 158-163).  A field
that is `none` is absent from the patch (pydantic `exclude_unset` keeps
only fields the request supplied).  An explicit JSON `null` for a string
field is not modelled: the columns are `nullable=False`, so the database
would reject it, and no claim concerns that case. -/
structure StudentUpdate where
  name : Option String := none
  email : Option String := none
  phone : Option String := none
  gender : Option String := none
  academic_details : Option AcademicDetailsBase := none
deriving Repr, DecidableEq

/-- Error outcomes of the handlers, named after the spec's error kinds. -/
inductive ApiError where
  | duplicateEmail
  | notFound
  | invalidParameter
  | storageUnavailable
deriving Repr, DecidableEq

/-- Lowercase a character sequence, as SQL `lower()` does for `ILIKE`. -/
def lowerChars (l : List Char) : List Char := l.map Char.toLower

/-- SQL LIKE-pattern matching: `%` matches any sequence of characters (the
pattern remainder must match some suffix of the subject), `_` matches
exactly one character, and every other pattern character matches itself;
the pattern must cover the whole subject string.  Recursion is structural
on the pattern. -/
def likeMatch : List Char → List Char → Bool
  | [], s => s.isEmpty
  | c :: ps, s =>
    if c == '%' then s.tails.any (likeMatch ps)
    else
      match s with
      | [] => false
      | d :: s' => (if c == '_' then true else c == d) && likeMatch ps s'

/-- Embeds `column.ilike(f"%{pat}%")` (src/main.py lines 346 and 350): the
raw filter text is wrapped in `%` wildcards and matched case-insensitively
against the column value, with any wildcard characters inside `pat` kept
live. -/
def ilikeContains (field pat : String) : Bool :=
  likeMatch (lowerChars ('%' :: (pat.data ++ ['%']))) (lowerChars field.data)

/-- Case-insensitive substring containment: the reading of "match
case-insensitively as substring" used by the specification. -/
def containsCI (field pat : String) : Bool :=
  decide ((lowerChars pat.data) <:+: (lowerChars field.data))

/-- Character sequence free of SQL LIKE wildcard characters. -/
def noWildcardsL (l : List Char) : Bool :=
  l.all (fun ch => !(ch == '%') && !(ch == '_'))

/-- Filter text free of SQL LIKE wildcard characters. -/
def noWildcards (s : String) : Bool :=
  noWildcardsL s.data

/-- Python truthiness of an optional string (`if college:`): `None` and the
empty string are falsy. -/
def pyTruthyStr : Option String → Bool
  | none => false
  | some s => !(s == "")

/-- Python truthiness of an optional integer (`if year:`): `None` and `0`
are falsy. -/
def pyTruthyInt : Option Int → Bool
  | none => false
  | some n => !(n == 0)

/-- Embeds `create_student` (src/main.py lines 267-303).  The handler first
queries for an existing student with the same email and raises HTTP 400
before any write if one exists.  Otherwise it performs TWO separate
commits: the student row is committed on its own (lines 286-287) and only
then is the academic-details row inserted and committed (lines 299-300).
`failSecond` models a database failure at the second commit: the first
commit has already durably persisted the student row, so rolling back the
failed transaction cannot undo it. -/
def create_student (db : DB) (req : StudentCreate) (failSecond : Bool) :
    Except ApiError StudentRow × DB :=
  match db.students.find? (fun s => s.email == req.email) with
  | some _ => (.error .duplicateEmail, db)
  | none =>
    let sid := db.nextStudentId
    let st : StudentRow :=
      { id := sid, name := req.name, email := req.email,
        phone := req.phone, gender := req.gender }
    let db1 : DB :=
      { db with students := db.students ++ [st], nextStudentId := sid + 1 }
    if failSecond then
      (.error .storageUnavailable, db1)
    else
      let ac : AcademicRow :=
        { id := db.nextAcademicId, student_id := sid,
          college_name := req.academic_details.college_name,
          department := req.academic_details.department,
          graduation_year := req.academic_details.graduation_year,
          cgpa := req.academic_details.cgpa,
          backlogs := req.academic_details.backlogs }
      (.ok st,
       { db1 with academics := db1.academics ++ [ac],
                  nextAcademicId := db.nextAcademicId + 1 })

set_option linter.unusedVariables false in
/-- Embeds `get_students` (src/main.py lines 306-320).  The
`Query(0, ge=0)` and `Query(10, ge=1, le=100)` bounds are enforced by
request validation, which rejects an out-of-range request with HTTP 422
before the handler runs.  The handler's SELECT carries no ORDER BY, so the
engine returns the stored rows in an order of its own choosing: `ord` is
that choice, and theorems constrain it to be a permutation of
`db.students`; the row data itself comes from `db` through that
constraint. -/
def get_students (db : DB) (skip limit : Int) (ord : List StudentRow) :
    Except ApiError (List StudentRow) :=
  if skip < 0 ∨ limit < 1 ∨ limit > 100 then .error .invalidParameter
  else .ok ((ord.drop skip.toNat).take limit.toNat)

/-- Engine-order validity for `get_students`: a SELECT without ORDER BY
returns exactly the stored rows, in some order. -/
def validOrder (db : DB) (ord : List StudentRow) : Prop :=
  ord.Perm db.students

/-- One filter row of the inner join `query(Student).join(AcademicDetails)`
passing the applied filters (src/main.py lines 344-350): each filter is
applied only when its value is Python-truthy, and filters on the joined
`AcademicDetails` columns. -/
def rowPasses (college : Option String) (year : Option Int)
    (department : Option String) (a : AcademicRow) : Bool :=
  (!pyTruthyStr college || ilikeContains a.college_name (college.getD "")) &&
  (!pyTruthyInt year || (a.graduation_year == year.getD 0)) &&
  (!pyTruthyStr department || ilikeContains a.department (department.getD ""))

/-- The (student, academic-detail) pairs produced by the inner join
`query(Student).join(AcademicDetails)` (src/main.py line 339). -/
def joinedPairs (db : DB) : List (StudentRow × AcademicRow) :=
  db.students.flatMap (fun s =>
    (db.academics.filter (fun a => a.student_id == s.id)).map (fun a => (s, a)))

/-- Deduplication of the primary entity by primary key, keeping the first
occurrence: the legacy SQLAlchemy `Query` deduplicates returned ORM
entities by identity when joined eager loading is in effect. -/
def dedupById (seen : List Nat) : List StudentRow → List StudentRow
  | [] => []
  | s :: rest =>
    if seen.contains s.id then dedupById seen rest
    else s :: dedupById (s.id :: seen) rest

/-- Embeds `search_students` (src/main.py lines 326-354): inner join of
students with academic details, truthiness-guarded filters, entity
deduplication, then OFFSET/LIMIT.  The join is in stored row order (the
SELECT has no ORDER BY; no claim settled here depends on the engine's
order choice for this endpoint). -/
def search_students (db : DB) (college : Option String) (year : Option Int)
    (department : Option String) (skip limit : Int) :
    Except ApiError (List StudentRow) :=
  if skip < 0 ∨ limit < 1 ∨ limit > 100 then .error .invalidParameter
  else
    .ok (((dedupById [] (((joinedPairs db).filter
        (fun p => rowPasses college year department p.2)).map
          Prod.fst)).drop skip.toNat).take limit.toNat)

/-- Embeds `get_student` (src/main.py lines 358-368). -/
def get_student (db : DB) (sid : Nat) : Except ApiError StudentRow :=
  match db.students.find? (fun s => s.id == sid) with
  | none => .error .notFound
  | some st => .ok st

/-- The student-level part of `update_student` (src/main.py lines 383-385):
`dict(exclude_unset=True, exclude={"academic_details"})` yields only the
fields the patch supplied, and each one overwrites the stored value. -/
def applyStudentPatch (u : StudentUpdate) (s : StudentRow) : StudentRow :=
  { s with name := u.name.getD s.name, email := u.email.getD s.email,
           phone := u.phone.getD s.phone, gender := u.gender.getD s.gender }

/-- The academic-details part of `update_student` (src/main.py lines
391-393): `student_update.academic_details.dict()` lists all five fields
(with `backlogs` defaulted to 0 by pydantic when the request omitted it),
and each is written onto the targeted row. -/
def replaceAcademic (b : AcademicDetailsBase) (a : AcademicRow) : AcademicRow :=
  { a with college_name := b.college_name, department := b.department,
           graduation_year := b.graduation_year, cgpa := b.cgpa,
           backlogs := b.backlogs }

/-- Embeds `update_student` (src/main.py lines 370-397): 404 when the id is
absent; otherwise the supplied student-level fields overwrite the row with
that primary key, and, when the patch carries an academic-details
sub-object, the first academic row found for the student (the stored-order
first, the SELECT having no ORDER BY) is fully overwritten; when no such
row exists nothing academic happens. -/
def update_student (db : DB) (sid : Nat) (u : StudentUpdate) :
    Except ApiError StudentRow × DB :=
  match db.students.find? (fun s => s.id == sid) with
  | none => (.error .notFound, db)
  | some st =>
    let students' := db.students.map
      (fun s => if s.id == sid then applyStudentPatch u s else s)
    let academics' :=
      match u.academic_details with
      | none => db.academics
      | some b =>
        match db.academics.find? (fun a => a.student_id == sid) with
        | none => db.academics
        | some a0 => db.academics.map
            (fun a => if a.id == a0.id then replaceAcademic b a else a)
    (.ok (applyStudentPatch u st),
     { db with students := students', academics := academics' })

/-- Embeds `delete_student` (src/main.py lines 399-417): 404 when the id is
absent; otherwise `db.delete(student)` with the relationships declared
`cascade="all, delete-orphan"` (src/main.py lines 90-91) removes the
student row and every academic-details and document row owned by it.  The
best-effort removal of the files on disk is a filesystem side effect and
is not modelled. -/
def delete_student (db : DB) (sid : Nat) : Except ApiError Unit × DB :=
  match db.students.find? (fun s => s.id == sid) with
  | none => (.error .notFound, db)
  | some _ =>
    (.ok (),
     { db with
        students := db.students.filter (fun s => !(s.id == sid)),
        academics := db.academics.filter (fun a => !(a.student_id == sid)),
        documents := db.documents.filter (fun d => !(d.student_id == sid)) })

/-- Embeds the document lookup of `download_document` (src/main.py lines
471-485): the row must match both the document id and the owning student
id, else HTTP 404.  The on-disk existence check and the file response are
filesystem effects and are not modelled. -/
def download_document (db : DB) (sid docId : Nat) :
    Except ApiError DocumentRow :=
  match db.documents.find? (fun d => d.id == docId && d.student_id == sid) with
  | none => .error .notFound
  | some d => .ok d

/-- Reading of one textual filter in the specification's semantics: absent
matches everything, given text matches as a case-insensitive substring
anywhere in the field. -/
def specTextFilter (filt : Option String) (field : String) : Bool :=
  match filt with
  | none => true
  | some s => containsCI field s

/-- Reading of the year filter in the specification's semantics: absent
matches everything, a given year must equal the graduation year exactly. -/
def specYearFilter (filt : Option Int) (year : Int) : Bool :=
  match filt with
  | none => true
  | some n => year == n

/-- Reading of the specification's search-filter semantics, for comparison
with the implementation: the conjunction of the three optional filters. -/
def specMatches (college : Option String) (year : Option Int)
    (department : Option String) (a : AcademicRow) : Bool :=
  specTextFilter college a.college_name &&
  specYearFilter year a.graduation_year &&
  specTextFilter department a.department

/-! Concrete rows used by witnesses and counterexamples; the values follow
the seed data of src/main.py lines 516-592. -/

def acBase1 : AcademicDetailsBase :=
  { college_name := "Indian Institute of Technology Delhi",
    department := "Computer Science", graduation_year := 2024,
    cgpa := ⟨17, 2, by decide, by decide⟩, backlogs := 0 }

def req1 : StudentCreate :=
  { name := "Rahul Sharma", email := "rahul.sharma@email.com",
    phone := "+91-9876543210", gender := "Male",
    academic_details := acBase1 }

def st1 : StudentRow :=
  { id := 1, name := "Rahul Sharma", email := "rahul.sharma@email.com",
    phone := "+91-9876543210", gender := "Male" }

def ac1 : AcademicRow :=
  { id := 1, student_id := 1,
    college_name := "Indian Institute of Technology Delhi",
    department := "Computer Science", graduation_year := 2024,
    cgpa := ⟨17, 2, by decide, by decide⟩, backlogs := 0 }

def st2 : StudentRow :=
  { id := 2, name := "Priya Patel", email := "priya.patel@email.com",
    phone := "+91-9876543211", gender := "Female" }

def doc1 : DocumentRow :=
  { id := 1, student_id := 1, doc_type := "resume",
    file_path := "student_upload_files/student_1_resume_cv.pdf" }

def db0 : DB :=
  { students := [], academics := [], documents := [],
    nextStudentId := 1, nextAcademicId := 1 }

def db2 : DB :=
  { students := [st1, st2], academics := [ac1], documents := [doc1],
    nextStudentId := 3, nextAcademicId := 2 }

def stCS : StudentRow :=
  { id := 5, name := "Vikram Singh", email := "vikram.singh@email.com",
    phone := "+91-9876543214", gender := "Male" }

def acCS : AcademicRow :=
  { id := 5, student_id := 5, college_name := "Bangalore University",
    department := "Computer Science", graduation_year := 2024,
    cgpa := ⟨41, 5, by decide, by decide⟩, backlogs := 0 }

def dbCS : DB :=
  { students := [stCS], academics := [acCS], documents := [],
    nextStudentId := 6, nextAcademicId := 6 }

def patchName : StudentUpdate := { name := some "New Name" }

/-! Helper lemmas about lowercasing and the LIKE matcher. -/

/-- Lowercasing never turns an ordinary character into a LIKE wildcard. -/
theorem toLower_not_wildcard {c : Char} (h1 : c ≠ '%') (h2 : c ≠ '_') :
    Char.toLower c ≠ '%' ∧ Char.toLower c ≠ '_' := by
  by_cases h : c.toNat ≥ 65 ∧ c.toNat ≤ 90
  · have hlow : Char.toLower c = Char.ofNat (c.toNat + 32) := by
      simp only [Char.toLower]
      rw [if_pos h]
    rw [hlow]
    obtain ⟨n, hn⟩ : ∃ n, c.toNat = n := ⟨_, rfl⟩
    rw [hn] at h
    rw [hn]
    obtain ⟨ha, hb⟩ := h
    interval_cases n <;> exact ⟨by decide, by decide⟩
  · have hlow : Char.toLower c = c := by
      simp only [Char.toLower]
      rw [if_neg h]
    rw [hlow]
    exact ⟨h1, h2⟩

/-- Lowercasing a wildcard-free character sequence keeps it wildcard-free. -/
theorem lowerChars_noWildcards {s : List Char} (h : noWildcardsL s = true) :
    noWildcardsL (lowerChars s) = true := by
  unfold noWildcardsL at h ⊢
  unfold lowerChars
  rw [List.all_map]
  rw [List.all_eq_true] at h ⊢
  intro c hc
  have hcs := h c hc
  simp only [Function.comp_apply, Bool.and_eq_true, Bool.not_eq_true',
    beq_eq_false_iff_ne] at hcs ⊢
  exact toLower_not_wildcard hcs.1 hcs.2

/-- A pattern headed by `%` matches exactly when its remainder matches some
suffix of the subject. -/
theorem likeMatch_percent_iff {ps s : List Char} :
    likeMatch ('%' :: ps) s = true ↔ ∃ t, t <:+ s ∧ likeMatch ps t = true := by
  have hunf : likeMatch ('%' :: ps) s = s.tails.any (likeMatch ps) := by
    simp [likeMatch]
  rw [hunf, List.any_eq_true]
  constructor
  · rintro ⟨t, ht, hm⟩
    exact ⟨t, (List.mem_tails t s).mp ht, hm⟩
  · rintro ⟨t, ht, hm⟩
    exact ⟨t, (List.mem_tails t s).mpr ht, hm⟩

/-- A wildcard-free pattern followed by a single trailing `%` matches
exactly the subjects it is a prefix of. -/
theorem likeMatch_trailing_percent {p : List Char} (hp : noWildcardsL p = true) :
    ∀ s : List Char, likeMatch (p ++ ['%']) s = true ↔ p <+: s := by
  induction p with
  | nil =>
    intro s
    simp only [List.nil_append]
    have hunf : likeMatch ['%'] s = s.tails.any (likeMatch []) := by
      simp [likeMatch]
    rw [hunf, List.any_eq_true]
    constructor
    · intro _
      exact List.nil_prefix
    · intro _
      exact ⟨[], (List.mem_tails [] s).mpr List.nil_suffix, rfl⟩
  | cons c p ih =>
    intro s
    simp only [noWildcardsL, List.all_cons, Bool.and_eq_true,
      Bool.not_eq_true'] at hp
    obtain ⟨⟨h1, h2⟩, hp'⟩ := hp
    have ih' := ih hp'
    cases s with
    | nil =>
      have hfalse : likeMatch ((c :: p) ++ ['%']) [] = false := by
        simp [likeMatch, h1]
      rw [hfalse]
      simp
    | cons d s' =>
      have hunf : likeMatch ((c :: p) ++ ['%']) (d :: s') =
          ((if c == '_' then true else c == d) && likeMatch (p ++ ['%']) s') := by
        simp [likeMatch, h1]
      rw [hunf, h2, List.cons_prefix_cons, ← ih' s']
      simp [Bool.and_eq_true, beq_iff_eq]

/-- A wildcard-free pattern wrapped in `%` on both sides matches exactly
the subjects containing it. -/
theorem likeMatch_wrapped_iff {p : List Char} (hp : noWildcardsL p = true)
    (s : List Char) :
    likeMatch ('%' :: (p ++ ['%'])) s = true ↔ p <:+: s := by
  rw [likeMatch_percent_iff, List.infix_iff_prefix_suffix]
  constructor
  · rintro ⟨t, ht, hm⟩
    exact ⟨t, (likeMatch_trailing_percent hp t).mp hm, ht⟩
  · rintro ⟨t, hpt, hts⟩
    exact ⟨t, hts, (likeMatch_trailing_percent hp t).mpr hpt⟩

/-- On wildcard-free filter text, the implementation's `ILIKE '%…%'` match
coincides with case-insensitive substring containment. -/
theorem ilikeContains_eq_containsCI (field pat : String)
    (h : noWildcards pat = true) :
    ilikeContains field pat = containsCI field pat := by
  have hw : noWildcardsL (lowerChars pat.data) = true :=
    lowerChars_noWildcards h
  unfold ilikeContains containsCI
  have hdec : lowerChars ('%' :: (pat.data ++ ['%'])) =
      '%' :: (lowerChars pat.data ++ ['%']) := by
    simp [lowerChars, show Char.toLower '%' = '%' from by decide]
  rw [hdec]
  have hiff := likeMatch_wrapped_iff hw (lowerChars field.data)
  by_cases hinf : lowerChars pat.data <:+: lowerChars field.data
  · rw [hiff.mpr hinf, decide_eq_true hinf]
  · have hfalse : likeMatch ('%' :: (lowerChars pat.data ++ ['%']))
        (lowerChars field.data) = false := by
      cases hres : likeMatch ('%' :: (lowerChars pat.data ++ ['%']))
          (lowerChars field.data)
      · rfl
      · exact absurd (hiff.mp hres) hinf
    rw [hfalse, decide_eq_false hinf]

/-! Helper lemmas about entity deduplication and the join. -/

/-- Deduplication only drops elements, it never invents one. -/
theorem dedupById_subset {seen : List Nat} {l : List StudentRow}
    {s : StudentRow} (h : s ∈ dedupById seen l) : s ∈ l := by
  induction l generalizing seen with
  | nil => simp [dedupById] at h
  | cons x rest ih =>
    unfold dedupById at h
    by_cases hc : seen.contains x.id = true
    · rw [if_pos hc] at h
      exact List.mem_cons_of_mem x (ih h)
    · rw [if_neg hc] at h
      rcases List.mem_cons.mp h with heq | h'
      · exact heq ▸ List.mem_cons_self x rest
      · exact List.mem_cons_of_mem x (ih h')

/-- Deduplication never lengthens a list. -/
theorem dedupById_length_le (seen : List Nat) (l : List StudentRow) :
    (dedupById seen l).length ≤ l.length := by
  induction l generalizing seen with
  | nil => simp [dedupById]
  | cons x rest ih =>
    unfold dedupById
    by_cases hc : seen.contains x.id = true
    · rw [if_pos hc]
      exact Nat.le_succ_of_le (ih seen)
    · rw [if_neg hc]
      simpa using Nat.succ_le_succ (ih (x.id :: seen))

/-- Membership after deduplication, over a list on which the primary key
determines the row. -/
theorem mem_dedupById {l : List StudentRow}
    (hinj : ∀ x ∈ l, ∀ y ∈ l, x.id = y.id → x = y) :
    ∀ (seen : List Nat) (a : StudentRow),
      a ∈ dedupById seen l ↔ a ∈ l ∧ a.id ∉ seen := by
  induction l with
  | nil =>
    intro seen a
    simp [dedupById]
  | cons x rest ih =>
    have hinj' : ∀ u ∈ rest, ∀ v ∈ rest, u.id = v.id → u = v :=
      fun u hu v hv => hinj u (List.mem_cons_of_mem _ hu) v
        (List.mem_cons_of_mem _ hv)
    intro seen a
    unfold dedupById
    by_cases hc : seen.contains x.id = true
    · have hxid : x.id ∈ seen := by simpa [List.contains] using hc
      rw [if_pos hc, ih hinj' seen a]
      constructor
      · rintro ⟨ha, hs⟩
        exact ⟨List.mem_cons_of_mem _ ha, hs⟩
      · rintro ⟨ha, hs⟩
        rcases List.mem_cons.mp ha with heq | ha'
        · exact absurd (heq ▸ hxid) hs
        · exact ⟨ha', hs⟩
    · have hxid : x.id ∉ seen := by
        intro hmem
        exact hc (by simpa [List.contains] using hmem)
      rw [if_neg hc]
      constructor
      · intro h
        rcases List.mem_cons.mp h with heq | h'
        · subst heq
          exact ⟨List.mem_cons_self _ _, hxid⟩
        · obtain ⟨ha, hs⟩ := (ih hinj' (x.id :: seen) a).mp h'
          exact ⟨List.mem_cons_of_mem _ ha,
            fun hmem => hs (List.mem_cons_of_mem _ hmem)⟩
      · rintro ⟨ha, hs⟩
        rcases List.mem_cons.mp ha with heq | ha'
        · subst heq
          exact List.mem_cons_self _ _
        · by_cases hax : a.id = x.id
          · have heq : a = x := hinj a (List.mem_cons_of_mem _ ha') x
              (List.mem_cons_self _ _) hax
            subst heq
            exact List.mem_cons_self _ _
          · refine List.mem_cons_of_mem _
              ((ih hinj' (x.id :: seen) a).mpr ⟨ha', ?_⟩)
            intro hmem
            rcases List.mem_cons.mp hmem with h1 | h2
            · exact hax h1
            · exact hs h2

/-- Membership in the inner join: a pair appears exactly when the student
row is stored, the academic row is stored, and the academic row belongs to
the student. -/
theorem mem_joinedPairs {db : DB} {p : StudentRow × AcademicRow} :
    p ∈ joinedPairs db ↔
      p.1 ∈ db.students ∧ p.2 ∈ db.academics ∧ p.2.student_id = p.1.id := by
  obtain ⟨s, a⟩ := p
  simp only [joinedPairs, List.mem_flatMap, List.mem_map, List.mem_filter,
    Prod.mk.injEq, beq_iff_eq]
  constructor
  · rintro ⟨x, hx, a', ⟨ha', hsid⟩, hx', ha''⟩
    subst hx'
    subst ha''
    exact ⟨hx, ha', hsid⟩
  · rintro ⟨hs, ha, hsid⟩
    exact ⟨s, hs, a, ⟨ha, hsid⟩, rfl, rfl⟩

/-- An empty pattern is a substring of every field. -/
theorem containsCI_empty (field : String) : containsCI field "" = true := by
  unfold containsCI
  exact decide_eq_true List.nil_infix

/-- Under wildcard-free text filters and a nonzero year filter, a joined
row passes the implementation's filters exactly when it satisfies the
specification's substring/equality conjunction.  An empty text filter is
Python-falsy and hence skipped by the code, but the empty string is also a
substring of everything, so the two readings still agree; only a zero year
filter (skipped by the code, selective in the spec's reading) must be
excluded. -/
theorem rowPasses_eq_specMatches {c : Option String} {y : Option Int}
    {d : Option String}
    (hc : ∀ s, c = some s → noWildcards s = true)
    (hy : ∀ n, y = some n → n ≠ 0)
    (hd : ∀ s, d = some s → noWildcards s = true)
    (a : AcademicRow) :
    rowPasses c y d a = specMatches c y d a := by
  unfold rowPasses specMatches
  have h1 : (!pyTruthyStr c || ilikeContains a.college_name (c.getD "")) =
      specTextFilter c a.college_name := by
    cases c with
    | none => rfl
    | some s =>
      by_cases hse : s = ""
      · subst hse
        simp [pyTruthyStr, specTextFilter, containsCI_empty]
      · have ht : pyTruthyStr (some s) = true := by
          simp [pyTruthyStr, hse]
        rw [ht]
        simp only [Bool.not_true, Bool.false_or, Option.getD_some,
          specTextFilter]
        exact ilikeContains_eq_containsCI _ s (hc s rfl)
  have h2 : (!pyTruthyInt y || (a.graduation_year == y.getD 0)) =
      specYearFilter y a.graduation_year := by
    cases y with
    | none => rfl
    | some n =>
      have ht : pyTruthyInt (some n) = true := by
        simp [pyTruthyInt, hy n rfl]
      rw [ht]
      simp only [Bool.not_true, Bool.false_or, Option.getD_some,
        specYearFilter]
  have h3 : (!pyTruthyStr d || ilikeContains a.department (d.getD "")) =
      specTextFilter d a.department := by
    cases d with
    | none => rfl
    | some s =>
      by_cases hse : s = ""
      · subst hse
        simp [pyTruthyStr, specTextFilter, containsCI_empty]
      · have ht : pyTruthyStr (some s) = true := by
          simp [pyTruthyStr, hse]
        rw [ht]
        simp only [Bool.not_true, Bool.false_or, Option.getD_some,
          specTextFilter]
        exact ilikeContains_eq_containsCI _ s (hd s rfl)
  rw [h1, h2, h3]

/-- C4: search with wildcard-free text filters and a nonzero year filter
(and the whole result set requested: skip 0, limit at least the joined row
count) returns exactly the stored students owning a stored academic row
that satisfies, simultaneously, every given filter under the
specification's reading — case-insensitive substring for college and
department, exact match for year.  In particular a student with zero
academic rows is never returned.  The two extra hypotheses are forced by
search_students_wildcard_counterexample: filter text containing a LIKE
wildcard is interpolated verbatim into the ILIKE pattern and then means
more than substring containment, and a year filter of 0 is Python-falsy
and silently dropped instead of selecting graduation year 0. -/
theorem search_students_exact_on_wildcard_free (db : DB) (c : Option String)
    (y : Option Int) (d : Option String) (limit : Int)
    (hids : (db.students.map (fun s => s.id)).Nodup)
    (hc : ∀ s, c = some s → noWildcards s = true)
    (hy : ∀ n, y = some n → n ≠ 0)
    (hd : ∀ s, d = some s → noWildcards s = true)
    (hlim1 : 1 ≤ limit) (hlim2 : limit ≤ 100)
    (hbig : (joinedPairs db).length ≤ limit.toNat) :
    ∃ res, search_students db c y d 0 limit = .ok res ∧
      ∀ st, st ∈ res ↔
        st ∈ db.students ∧ ∃ a ∈ db.academics,
          a.student_id = st.id ∧ specMatches c y d a = true := by
  have hval : ¬((0 : Int) < 0 ∨ limit < 1 ∨ limit > 100) := by omega
  unfold search_students
  rw [if_neg hval]
  have hlen : (dedupById [] (((joinedPairs db).filter
      (fun p => rowPasses c y d p.2)).map Prod.fst)).length ≤ limit.toNat := by
    calc (dedupById [] (((joinedPairs db).filter
            (fun p => rowPasses c y d p.2)).map Prod.fst)).length
        ≤ (((joinedPairs db).filter
            (fun p => rowPasses c y d p.2)).map Prod.fst).length :=
          dedupById_length_le _ _
      _ = ((joinedPairs db).filter (fun p => rowPasses c y d p.2)).length :=
          by simp
      _ ≤ (joinedPairs db).length := List.length_filter_le _ _
      _ ≤ limit.toNat := hbig
  refine ⟨_, rfl, ?_⟩
  intro st
  have hinj : ∀ x ∈ ((joinedPairs db).filter
        (fun p => rowPasses c y d p.2)).map Prod.fst,
      ∀ z ∈ ((joinedPairs db).filter
        (fun p => rowPasses c y d p.2)).map Prod.fst,
      x.id = z.id → x = z := by
    intro x hx z hz hxz
    obtain ⟨px, hpx, hx1⟩ := List.mem_map.mp hx
    obtain ⟨pz, hpz, hz1⟩ := List.mem_map.mp hz
    have hx' : x ∈ db.students :=
      hx1 ▸ (mem_joinedPairs.mp (List.mem_filter.mp hpx).1).1
    have hz' : z ∈ db.students :=
      hz1 ▸ (mem_joinedPairs.mp (List.mem_filter.mp hpz).1).1
    exact List.inj_on_of_nodup_map hids hx' hz' hxz
  rw [show ((0 : Int).toNat) = 0 from rfl, List.drop_zero,
    List.take_of_length_le hlen, mem_dedupById hinj [] st]
  simp only [List.mem_map, List.mem_filter, List.not_mem_nil,
    not_false_iff, and_true]
  constructor
  · rintro ⟨p, ⟨hpj, hpass⟩, rfl⟩
    obtain ⟨hs, ha, hsid⟩ := mem_joinedPairs.mp hpj
    refine ⟨hs, p.2, ha, hsid, ?_⟩
    rw [← rowPasses_eq_specMatches hc hy hd p.2]
    exact hpass
  · rintro ⟨hs, a, ha, hsid, hspec⟩
    refine ⟨(st, a), ⟨mem_joinedPairs.mpr ⟨hs, ha, hsid⟩, ?_⟩, rfl⟩
    rw [rowPasses_eq_specMatches hc hy hd a]
    exact hspec

/-- C4 counterexample: the claim fails as stated, on two concrete searches
against a store whose only student has the single academic row acCS with
department "Computer Science" and graduation year 2024.  First, a
department filter "C%S" returns the student — the code interpolates the
text into an ILIKE pattern, so `%` stays a wildcard — yet "c%s" is not a
substring of "computer science", so the claim's conjunction rejects the
row.  Second, a year filter 0 also returns the student — 0 is
Python-falsy, so the code applies no year filter — yet the claim's exact
year match rejects the row (2024 ≠ 0). -/
theorem search_students_wildcard_counterexample :
    (search_students dbCS none none (some "C%S") 0 10 = .ok [stCS] ∧
      specMatches none none (some "C%S") acCS = false) ∧
    (search_students dbCS none (some 0) none 0 10 = .ok [stCS] ∧
      specMatches none (some 0) none acCS = false) ∧
    dbCS.academics = [acCS] := by decide

/-- C4 witness: the exactness theorem applied to a concrete store and
concrete wildcard-free filters. -/
theorem search_students_exact_witness :
    ((db2.students.map (fun s => s.id)).Nodup ∧
      (joinedPairs db2).length ≤ (10 : Int).toNat) ∧
    ∃ res, search_students db2 (some "Tech") (some 2024) (some "Comp")
        0 10 = .ok res ∧
      ∀ st, st ∈ res ↔
        st ∈ db2.students ∧ ∃ a ∈ db2.academics,
          a.student_id = st.id ∧
          specMatches (some "Tech") (some 2024) (some "Comp") a = true :=
  ⟨⟨by decide, by decide⟩,
   search_students_exact_on_wildcard_free db2 (some "Tech") (some 2024)
     (some "Comp") 10
     (by decide)
     (by intro s hs; cases hs; decide)
     (by intro n hn; cases hn; decide)
     (by intro s hs; cases hs; decide)
     (by decide) (by decide) (by decide)⟩

/-- C9: search treats falsy filter values as absent filters.  A call with
year 0 is identical, state for state, to a call with no year filter, and a
call with an empty college or department string is identical to a call
without that filter, because every filter is applied only when its value
is Python-truthy (src/main.py lines 344-350). -/
theorem search_students_falsy_filters_ignored (db : DB) (c d : Option String)
    (y : Option Int) (skip limit : Int) :
    search_students db c (some 0) d skip limit =
      search_students db c none d skip limit ∧
    search_students db (some "") y d skip limit =
      search_students db none y d skip limit ∧
    search_students db c y (some "") skip limit =
      search_students db c y none skip limit := by
  refine ⟨?_, ?_, ?_⟩ <;>
    simp [search_students, rowPasses, pyTruthyInt, pyTruthyStr]

/-- C10: the search joins academic details unconditionally, so a student
owning no academic row is absent from every search result, filters or no
filters (src/main.py line 339). -/
theorem search_students_excludes_without_academics (db : DB)
    (c : Option String) (y : Option Int) (d : Option String)
    (skip limit : Int) (st : StudentRow)
    (h : ∀ a ∈ db.academics, a.student_id ≠ st.id)
    (res : List StudentRow)
    (hres : search_students db c y d skip limit = .ok res) :
    st ∉ res := by
  intro hmem
  unfold search_students at hres
  by_cases hval : skip < 0 ∨ limit < 1 ∨ limit > 100
  · rw [if_pos hval] at hres
    cases hres
  · rw [if_neg hval] at hres
    injection hres with hres
    subst hres
    have h1 : st ∈ dedupById [] (((joinedPairs db).filter
        (fun p => rowPasses c y d p.2)).map Prod.fst) :=
      List.mem_of_mem_drop (List.mem_of_mem_take hmem)
    have h2 := dedupById_subset h1
    obtain ⟨p, hp, hp1⟩ := List.mem_map.mp h2
    have hpj := (List.mem_filter.mp hp).1
    obtain ⟨_, ha, hsid⟩ := mem_joinedPairs.mp hpj
    exact h p.2 ha (by rw [hsid, hp1])

/-- C10 witness: in the concrete store db2 the student st2 has no academic
row, and the unfiltered search indeed returns only st1. -/
theorem search_students_excludes_witness :
    (∀ a ∈ db2.academics, a.student_id ≠ st2.id) ∧ st2 ∉ [st1] :=
  ⟨by decide,
   search_students_excludes_without_academics db2 none none none 0 10 st2
     (by decide) [st1] (by decide)⟩

/-- C5: a partial update touches only the supplied student-level fields.
For an existing student, every field absent from the patch keeps its stored
value in the returned (and stored) row, a patch without an
academic-details sub-object leaves the academic table untouched, and the
documents table is never touched (src/main.py lines 383-394). -/
theorem update_student_frame (db : DB) (sid : Nat) (u : StudentUpdate)
    (st : StudentRow)
    (hst : db.students.find? (fun s => s.id == sid) = some st) :
    ∃ st', (update_student db sid u).1 = .ok st' ∧
      st' ∈ (update_student db sid u).2.students ∧
      (u.name = none → st'.name = st.name) ∧
      (u.email = none → st'.email = st.email) ∧
      (u.phone = none → st'.phone = st.phone) ∧
      (u.gender = none → st'.gender = st.gender) ∧
      (u.academic_details = none →
        (update_student db sid u).2.academics = db.academics) ∧
      (update_student db sid u).2.documents = db.documents := by
  unfold update_student
  rw [hst]
  refine ⟨applyStudentPatch u st, rfl, ?_, ?_, ?_, ?_, ?_, ?_, rfl⟩
  · have hmem := List.mem_map_of_mem
      (fun s => if s.id == sid then applyStudentPatch u s else s)
      (List.mem_of_find?_eq_some hst)
    have hpred : (st.id == sid) = true := by
      simpa using List.find?_some hst
    simpa [hpred] using hmem
  · intro h
    simp [applyStudentPatch, h]
  · intro h
    simp [applyStudentPatch, h]
  · intro h
    simp [applyStudentPatch, h]
  · intro h
    simp [applyStudentPatch, h]
  · intro h
    simp [h]

/-- C5 witness: updating only the name of a concrete student leaves email,
phone, gender, the academic table and the document table unchanged. -/
theorem update_student_frame_witness :
    (db2.students.find? (fun s => s.id == 1) = some st1) ∧
    ∃ st', (update_student db2 1 patchName).1 = .ok st' ∧
      st' ∈ (update_student db2 1 patchName).2.students ∧
      (patchName.name = none → st'.name = st1.name) ∧
      (patchName.email = none → st'.email = st1.email) ∧
      (patchName.phone = none → st'.phone = st1.phone) ∧
      (patchName.gender = none → st'.gender = st1.gender) ∧
      (patchName.academic_details = none →
        (update_student db2 1 patchName).2.academics = db2.academics) ∧
      (update_student db2 1 patchName).2.documents = db2.documents :=
  ⟨by decide, update_student_frame db2 1 patchName st1 (by decide)⟩

/-- C7: when the patch carries an academic-details sub-object the operation
succeeds and the first academic row found for the student is fully
replaced, every field taking the sub-object's value while the row keeps
its identity; when the student has no academic row the academic part is a
no-op with no row inserted (src/main.py lines 387-394). -/
theorem update_student_academics_full_replace (db : DB) (sid : Nat)
    (u : StudentUpdate) (b : AcademicDetailsBase) (st : StudentRow)
    (hst : db.students.find? (fun s => s.id == sid) = some st)
    (hb : u.academic_details = some b) :
    (∃ st', (update_student db sid u).1 = .ok st') ∧
    (db.academics.find? (fun a => a.student_id == sid) = none →
      (update_student db sid u).2.academics = db.academics) ∧
    (∀ a0, db.academics.find? (fun a => a.student_id == sid) = some a0 →
      ∃ f, (update_student db sid u).2.academics = db.academics.map f ∧
        (∀ a : AcademicRow, a.id ≠ a0.id → f a = a) ∧
        (∀ a : AcademicRow, a.id = a0.id →
          (f a).college_name = b.college_name ∧
          (f a).department = b.department ∧
          (f a).graduation_year = b.graduation_year ∧
          (f a).cgpa = b.cgpa ∧ (f a).backlogs = b.backlogs ∧
          (f a).id = a.id ∧ (f a).student_id = a.student_id)) := by
  unfold update_student
  rw [hst, hb]
  refine ⟨⟨applyStudentPatch u st, rfl⟩, ?_, ?_⟩
  · intro hnone
    rw [hnone]
  · intro a0 ha0
    rw [ha0]
    refine ⟨fun a => if a.id == a0.id then replaceAcademic b a else a,
      rfl, ?_, ?_⟩
    · intro a ha
      simp [ha]
    · intro a ha
      simp [ha, replaceAcademic]

/-- C7 witness: a concrete full replacement of the single academic row of
student 1 by the sub-object's five fields. -/
theorem update_student_academics_witness :
    ((db2.students.find? (fun s => s.id == 1) = some st1) ∧
      ({ academic_details := some acBase1 } : StudentUpdate).academic_details
        = some acBase1) ∧
    ((∃ st', (update_student db2 1 { academic_details := some acBase1 }).1
        = .ok st') ∧
     (db2.academics.find? (fun a => a.student_id == 1) = none →
       (update_student db2 1 { academic_details := some acBase1 }).2.academics
         = db2.academics) ∧
     (∀ a0, db2.academics.find? (fun a => a.student_id == 1) = some a0 →
       ∃ f, (update_student db2 1
             { academic_details := some acBase1 }).2.academics =
           db2.academics.map f ∧
         (∀ a : AcademicRow, a.id ≠ a0.id → f a = a) ∧
         (∀ a : AcademicRow, a.id = a0.id →
           (f a).college_name = acBase1.college_name ∧
           (f a).department = acBase1.department ∧
           (f a).graduation_year = acBase1.graduation_year ∧
           (f a).cgpa = acBase1.cgpa ∧
           (f a).backlogs = acBase1.backlogs ∧
           (f a).id = a.id ∧ (f a).student_id = a.student_id))) :=
  ⟨⟨by decide, rfl⟩,
   update_student_academics_full_replace db2 1
     { academic_details := some acBase1 } acBase1 st1 (by decide) rfl⟩

/-- C6: deleting an existing student succeeds and cascades.  Afterwards no
academic or document row owned by the student remains, fetching the
student fails with NotFound, and looking up any of its former document ids
fails with NotFound (src/main.py lines 399-417 and the cascade
declarations of lines 90-91). -/
theorem delete_student_cascades (db : DB) (sid : Nat) (st : StudentRow)
    (hst : db.students.find? (fun s => s.id == sid) = some st) :
    (delete_student db sid).1 = .ok () ∧
    (∀ a ∈ (delete_student db sid).2.academics, a.student_id ≠ sid) ∧
    (∀ d ∈ (delete_student db sid).2.documents, d.student_id ≠ sid) ∧
    get_student (delete_student db sid).2 sid = .error .notFound ∧
    (∀ d ∈ db.documents, d.student_id = sid →
      download_document (delete_student db sid).2 sid d.id =
        .error .notFound) := by
  unfold delete_student
  rw [hst]
  refine ⟨rfl, ?_, ?_, ?_, ?_⟩
  · intro a ha
    have h2 := (List.mem_filter.mp ha).2
    simpa using h2
  · intro d hd
    have h2 := (List.mem_filter.mp hd).2
    simpa using h2
  · unfold get_student
    have hnone : (db.students.filter (fun s => !(s.id == sid))).find?
        (fun s => s.id == sid) = none := by
      rw [List.find?_eq_none]
      intro x hx
      have h2 := (List.mem_filter.mp hx).2
      simpa using h2
    rw [hnone]
  · intro d _ _
    unfold download_document
    have hnone : (db.documents.filter
        (fun d' => !(d'.student_id == sid))).find?
        (fun d' => d'.id == d.id && d'.student_id == sid) = none := by
      rw [List.find?_eq_none]
      intro x hx
      have h2 := (List.mem_filter.mp hx).2
      simp only [Bool.not_eq_true'] at h2
      simp [h2]
    rw [hnone]

/-- C6 witness: deleting concrete student 1 removes its academic row and
its document row, and both follow-up lookups report NotFound. -/
theorem delete_student_cascades_witness :
    (db2.students.find? (fun s => s.id == 1) = some st1) ∧
    ((delete_student db2 1).1 = .ok () ∧
     (∀ a ∈ (delete_student db2 1).2.academics, a.student_id ≠ 1) ∧
     (∀ d ∈ (delete_student db2 1).2.documents, d.student_id ≠ 1) ∧
     get_student (delete_student db2 1).2 1 = .error .notFound ∧
     (∀ d ∈ db2.documents, d.student_id = 1 →
       download_document (delete_student db2 1).2 1 d.id =
         .error .notFound)) :=
  ⟨by decide, delete_student_cascades db2 1 st1 (by decide)⟩

/-- C8: pagination parameters outside skip ≥ 0, 1 ≤ limit ≤ 100 are
rejected by request validation with no data returned, never clamped
(src/main.py lines 308-309). -/
theorem get_students_rejects_out_of_range (db : DB) (skip limit : Int)
    (ord : List StudentRow)
    (h : skip < 0 ∨ limit < 1 ∨ limit > 100) :
    get_students db skip limit ord = .error .invalidParameter := by
  unfold get_students
  rw [if_pos h]

/-- C8 witness: limit 0 and limit 101 both fail with InvalidParameter on a
concrete store. -/
theorem get_students_rejects_witness :
    (((0 : Int) < 0 ∨ (0 : Int) < 1 ∨ (0 : Int) > 100) ∧
      get_students db2 0 0 [st1, st2] = .error .invalidParameter) ∧
    (((0 : Int) < 0 ∨ (101 : Int) < 1 ∨ (101 : Int) > 100) ∧
      get_students db2 0 101 [st1, st2] = .error .invalidParameter) :=
  ⟨⟨by decide,
    get_students_rejects_out_of_range db2 0 0 [st1, st2] (by decide)⟩,
   ⟨by decide,
    get_students_rejects_out_of_range db2 0 101 [st1, st2] (by decide)⟩⟩

/-- C3: creating a student whose exact email is already stored fails with
DuplicateEmail and leaves the store byte-for-byte unchanged, whether or not
the second commit would have failed (src/main.py lines 274-277). -/
theorem create_student_duplicate_email (db : DB) (req : StudentCreate)
    (b : Bool) (st : StudentRow) (hst : st ∈ db.students)
    (he : st.email = req.email) :
    create_student db req b = (.error .duplicateEmail, db) := by
  unfold create_student
  split
  · rfl
  · next hnone =>
    have hcontra := List.find?_eq_none.mp hnone st hst
    simp [he] at hcontra

/-- C3 witness: re-creating the already stored email of student 1 fails
and does not change the concrete store. -/
theorem create_student_duplicate_email_witness :
    (st1 ∈ db2.students ∧ st1.email = req1.email) ∧
    create_student db2 req1 false = (.error .duplicateEmail, db2) :=
  ⟨⟨by decide, by decide⟩,
   create_student_duplicate_email db2 req1 false st1 (by decide) (by decide)⟩

/-- C1: create_student is not atomic.  The handler commits the student row
on its own before inserting the academic-details row; when the second
commit fails the operation reports an error, yet the student row is
already durable with no academic row, and that partial state is observable
through get_student.  This contradicts the claimed all-or-nothing
visibility. -/
theorem create_student_partial_commit :
    (create_student db0 req1 true).1 = .error .storageUnavailable ∧
    (create_student db0 req1 true).2.students = [st1] ∧
    (create_student db0 req1 true).2.academics = [] ∧
    get_student (create_student db0 req1 true).2 1 = .ok st1 := by decide

/-- C2: pagination is not stable.  The listing SELECT has no ORDER BY, so
the engine may return the same unchanged store in different orders on the
two calls; both orders below are permutations of the stored rows, yet page
skip=0,limit=1 and page skip=1,limit=1 both return student 1, repeating it
and skipping student 2. -/
theorem get_students_pagination_unstable :
    validOrder db2 [st1, st2] ∧ validOrder db2 [st2, st1] ∧
    get_students db2 0 1 [st1, st2] = .ok [st1] ∧
    get_students db2 1 1 [st2, st1] = .ok [st1] := by
  refine ⟨List.Perm.refl _, ?_, by decide, by decide⟩
  show List.Perm [st2, st1] [st1, st2]
  exact List.Perm.swap st1 st2 []

end StudentMgmt
